import Mathlib

/-!
Verification of the RESTler mock coverage generator (src/coverage.py).

The program parses an OpenAPI YAML document, partitions the declared
endpoint paths into covered and uncovered subsets using a seeded shuffle
and a target percentage, and emits a JSON and an HTML report.  This file
embeds the data model and the operations of the program shallowly in Lean
and proves or refutes the frozen claims about it.

Modelling conventions:
- Machine floating point: `coverage.py` line 47 computes
  `int((coverage_percentage / 100) * total_endpoints)` with Python float
  (IEEE-754 binary64) arithmetic.  We model binary64 values exactly as
  rationals: `roundDouble` is round-to-nearest, ties-to-even at 53 bits of
  precision, which is the rounding every elementary Python float operation
  performs on the exact result.  (Neither overflow to infinity nor
  subnormal underflow can be reached by the quantities appearing here, so
  the normal-range formula suffices.)
- The global generator of the Python random module is threaded as an
  explicit state value.  The claims under verification depend only on the
  generator being a deterministic function of the seed and on the shuffle
  being an index-swapping Fisher-Yates pass, so the word generator behind
  `random.shuffle` is modelled by a small concrete deterministic generator
  rather than by the Mersenne-Twister of CPython; every theorem below
  about the shuffle holds for an arbitrary generator state.
- Fallible Python code (attribute errors) is modelled with `Except`,
  the file and YAML layer by an inductive input describing the three
  loader-relevant cases (missing file, unparsable file, parsed document).
-/

/-! ## Exact model of IEEE-754 binary64 rounding -/

/-- Round a rational to the nearest integer, ties to even.  This is the
final mantissa-rounding step of every correctly rounded binary64
operation. -/
def rnE (x : ℚ) : ℤ :=
  if x - ⌊x⌋ < 1/2 then ⌊x⌋
  else if 1/2 < x - ⌊x⌋ then ⌊x⌋ + 1
  else if ⌊x⌋ % 2 = 0 then ⌊x⌋ else ⌊x⌋ + 1

/-- Round a positive rational to the binary64 grid: 53 significant bits,
round to nearest, ties to even. -/
def roundPos (q : ℚ) : ℚ :=
  (rnE (q * 2 ^ ((52 : ℤ) - Int.log 2 q)) : ℚ) * 2 ^ (Int.log 2 q - 52)

/-- The binary64 double nearest to a rational (normal range).  Python
float arithmetic returns `roundDouble` of the exact rational result of
each operation. -/
def roundDouble (q : ℚ) : ℚ :=
  if q = 0 then 0 else if 0 < q then roundPos q else -roundPos (-q)

theorem roundDouble_zero : roundDouble 0 = 0 := by
  simp [roundDouble]

theorem rnE_int {x : ℚ} {f : ℤ} (hf : x = (f : ℚ)) : rnE x = f := by
  subst hf
  simp [rnE]

theorem log2_unique {q : ℚ} (hq : 0 < q) {c : ℤ}
    (h1 : (2 : ℚ) ^ c ≤ q) (h2 : q < 2 ^ (c + 1)) : Int.log 2 q = c := by
  have hle : c ≤ Int.log 2 q := (Int.zpow_le_iff_le_log one_lt_two hq).mp h1
  have hlt : Int.log 2 q < c + 1 := (Int.lt_zpow_iff_log_lt one_lt_two hq).mp h2
  omega

theorem rnE_of_lt {x : ℚ} {f : ℤ} (hf : ⌊x⌋ = f) (hlt : x - (f : ℚ) < 1/2) :
    rnE x = f := by
  rw [rnE, hf, if_pos hlt]

theorem rnE_of_tie {x : ℚ} {f : ℤ} (hf : ⌊x⌋ = f) (heq : x - (f : ℚ) = 1/2)
    (hev : f % 2 = 0) : rnE x = f := by
  rw [rnE, hf, heq]
  norm_num [hev]

/-- Evaluation rule for `roundDouble` at a positive rational once the
binary exponent and the rounded mantissa are known. -/
theorem roundDouble_eval {q : ℚ} {e f : ℤ} (hq : 0 < q)
    (h1 : (2 : ℚ) ^ e ≤ q) (h2 : q < 2 ^ (e + 1))
    (hr : rnE (q * 2 ^ ((52 : ℤ) - e)) = f) :
    roundDouble q = (f : ℚ) * 2 ^ (e - 52) := by
  rw [roundDouble, if_neg (ne_of_gt hq), if_pos hq, roundPos,
    log2_unique hq h1 h2, hr]

/-- A positive rational whose scaled mantissa is already an integer is
exactly representable, so rounding returns it unchanged. -/
theorem roundDouble_eq_self {q : ℚ} (hq : 0 < q) {k : ℤ}
    (hk : q * 2 ^ ((52 : ℤ) - Int.log 2 q) = (k : ℚ)) : roundDouble q = q := by
  rw [roundDouble, if_neg (ne_of_gt hq), if_pos hq, roundPos, rnE_int hk, ← hk,
    mul_assoc, ← zpow_add₀ (two_ne_zero (α := ℚ)),
    show (52 : ℤ) - Int.log 2 q + (Int.log 2 q - 52) = 0 by ring, zpow_zero,
    mul_one]

/-- Natural numbers up to 2 to the 53 are exactly representable in
binary64. -/
theorem roundDouble_natCast {t : ℕ} (h1 : 1 ≤ t) (h2 : t ≤ 2 ^ 53) :
    roundDouble (t : ℚ) = (t : ℚ) := by
  have hq : (0 : ℚ) < (t : ℚ) := by exact_mod_cast h1
  set e : ℤ := Int.log 2 (t : ℚ) with he
  have hlow : (2 : ℚ) ^ e ≤ (t : ℚ) := Int.zpow_log_le_self one_lt_two hq
  have he53 : e ≤ 53 := by
    by_contra hgt
    push_neg at hgt
    have : (2 : ℚ) ^ (54 : ℤ) ≤ (2 : ℚ) ^ e :=
      zpow_le_zpow_right₀ (by norm_num) (by omega)
    have hth : (2 : ℚ) ^ (54 : ℤ) ≤ (t : ℚ) := le_trans this hlow
    have : (t : ℚ) ≤ (2 : ℚ) ^ (53 : ℤ) := by
      rw [show ((53 : ℤ)) = ((53 : ℕ) : ℤ) by norm_num, zpow_natCast]
      exact_mod_cast h2
    have h54 : (2 : ℚ) ^ (53 : ℤ) < (2 : ℚ) ^ (54 : ℤ) :=
      zpow_lt_zpow_right₀ (by norm_num) (by omega)
    linarith
  rcases le_or_lt e 52 with hle | hgt
  · apply roundDouble_eq_self hq (k := (t : ℤ) * 2 ^ ((52 - e).toNat))
    rw [← he]
    have : (2 : ℚ) ^ ((52 : ℤ) - e) = ((2 ^ ((52 - e).toNat) : ℤ) : ℚ) := by
      push_cast
      rw [← zpow_natCast, Int.toNat_of_nonneg (by omega)]
    rw [this]
    push_cast
    ring
  · have he' : e = 53 := by omega
    have h53 : ((2 : ℚ) ^ (53 : ℤ)) ≤ (t : ℚ) := by rw [← he']; exact hlow
    have hts : (2 ^ 53 : ℕ) ≤ t := by
      have : ((2 ^ 53 : ℕ) : ℚ) ≤ (t : ℚ) := by
        rw [show ((53 : ℤ)) = ((53 : ℕ) : ℤ) by norm_num, zpow_natCast] at h53
        exact_mod_cast h53
      exact_mod_cast this
    have ht : t = 2 ^ 53 := le_antisymm h2 hts
    subst ht
    apply roundDouble_eq_self hq (k := 2 ^ 52)
    rw [← he, he']
    push_cast
    norm_num

theorem roundDouble_one : roundDouble 1 = 1 := by
  have := roundDouble_natCast (t := 1) le_rfl (by norm_num)
  simpa using this

/-- Model of line 47 of coverage.py:
`covered_count = int((coverage_percentage / 100) * total_endpoints)`.
The division and the multiplication are Python float operations, hence
each correctly rounded to binary64; `int` truncates (here: floors, all
quantities being nonnegative). -/
def pyCoveredCount (p t : ℕ) : ℕ :=
  (⌊roundDouble (roundDouble ((p : ℚ) / 100) * roundDouble (t : ℚ))⌋).toNat

theorem pyCoveredCount_p_zero (p : ℕ) : pyCoveredCount p 0 = 0 := by
  simp [pyCoveredCount, roundDouble_zero]

theorem pyCoveredCount_zero (t : ℕ) : pyCoveredCount 0 t = 0 := by
  simp [pyCoveredCount, roundDouble_zero]

theorem pyCoveredCount_100 {t : ℕ} (h : t ≤ 2 ^ 53) :
    pyCoveredCount 100 t = t := by
  rcases Nat.eq_zero_or_pos t with h0 | h1
  · subst h0; exact pyCoveredCount_p_zero 100
  · have hd : ((100 : ℕ) : ℚ) / 100 = 1 := by norm_num
    rw [pyCoveredCount, hd, roundDouble_one, one_mul,
      roundDouble_natCast h1 h, roundDouble_natCast h1 h]
    simp

/-- The Python float nearest to 29/100 (the value of `29 / 100`). -/
theorem roundDouble_29_div_100 :
    roundDouble ((29 : ℚ) / 100) = 5224175567749775 / 18014398509481984 := by
  have h := roundDouble_eval (q := (29 : ℚ) / 100) (e := -2)
    (f := 5224175567749775) (by norm_num) (by norm_num) (by norm_num)
    (rnE_of_lt (by rw [Int.floor_eq_iff]; norm_num) (by norm_num))
  rw [h]
  norm_num

/-- The Python float nearest to the exact product `0.29 * 100`, namely
28.999999999999996. -/
theorem roundDouble_product_29 :
    roundDouble ((130604389193744375 : ℚ) / 4503599627370496) =
      8162774324609023 / 281474976710656 := by
  have h := roundDouble_eval (q := (130604389193744375 : ℚ) / 4503599627370496)
    (e := 4) (f := 8162774324609023) (by norm_num) (by norm_num) (by norm_num)
    (rnE_of_lt (by rw [Int.floor_eq_iff]; norm_num) (by norm_num))
  rw [h]
  norm_num

/-- Line 47 at 100 endpoints and percentage 29 yields 28: Python computes
`int(0.29 * 100) == 28`, although `floor(100 * 29 / 100) = 29`. -/
theorem pyCoveredCount_29_100 : pyCoveredCount 29 100 = 28 := by
  have hcast : ((29 : ℕ) : ℚ) / 100 = (29 : ℚ) / 100 := by norm_num
  have h100 : roundDouble ((100 : ℕ) : ℚ) = ((100 : ℕ) : ℚ) :=
    roundDouble_natCast (by norm_num) (by norm_num)
  rw [pyCoveredCount, hcast, roundDouble_29_div_100, h100,
    show (5224175567749775 : ℚ) / 18014398509481984 * ((100 : ℕ) : ℚ) =
      (130604389193744375 : ℚ) / 4503599627370496 by norm_num,
    roundDouble_product_29,
    show ⌊(8162774324609023 : ℚ) / 281474976710656⌋ = 28 by
      rw [Int.floor_eq_iff]; norm_num]
  rfl

/-- The Python float nearest to `2 ^ 53 + 1`: the mantissa rounding is an
exact tie, resolved to the even mantissa, giving `2 ^ 53`. -/
theorem roundDouble_big :
    roundDouble ((9007199254740993 : ℚ)) = 9007199254740992 := by
  have h := roundDouble_eval (q := (9007199254740993 : ℚ)) (e := 53)
    (f := 4503599627370496) (by norm_num) (by norm_num) (by norm_num)
    (rnE_of_tie (by rw [Int.floor_eq_iff]; norm_num) (by norm_num)
      (by norm_num))
  rw [h]
  norm_num

/-- Line 47 at `2 ^ 53 + 1` endpoints and percentage 100 yields only
`2 ^ 53`: converting the length to float rounds it down. -/
theorem pyCoveredCount_100_big :
    pyCoveredCount 100 (2 ^ 53 + 1) = 2 ^ 53 := by
  have hd : ((100 : ℕ) : ℚ) / 100 = 1 := by norm_num
  have hcast : ((2 ^ 53 + 1 : ℕ) : ℚ) = (9007199254740993 : ℚ) := by norm_num
  have hc2 : ((9007199254740992 : ℚ)) = ((2 ^ 53 : ℕ) : ℚ) := by norm_num
  rw [pyCoveredCount, hd, roundDouble_one, one_mul, hcast, roundDouble_big,
    hc2, roundDouble_natCast (by norm_num) (by norm_num)]
  simp

/-! ## Model of the seeded pseudo-random generator and of random.shuffle -/

/-- State of the global generator of the Python random module.  The code
under verification only relies on the generator being a deterministic
function of the seed (line 51, `random.seed(42)`) and on draws being
in range, so the Mersenne-Twister internals of CPython are modelled by a
small concrete deterministic generator; every theorem below about the
shuffle holds for an arbitrary generator state. -/
structure RandState where
  val : ℕ
deriving DecidableEq

/-- Model of `random.seed(n)`: the resulting generator state is a pure
function of the seed value. -/
def RandState.seed (n : ℕ) : RandState :=
  ⟨n % 2 ^ 64⟩

/-- One step of the concrete generator (a 64-bit linear congruential
step, standing in for one Mersenne-Twister extraction). -/
def randStep (s : RandState) : RandState :=
  ⟨(6364136223846793005 * s.val + 1442695040888963407) % 2 ^ 64⟩

/-- Model of `random._randbelow(n)`: a draw in `[0, n)` together with the
successor generator state. -/
def randbelow (s : RandState) (n : ℕ) : ℕ × RandState :=
  ((randStep s).val % n, randStep s)

theorem randbelow_lt (s : RandState) {n : ℕ} (h : 0 < n) :
    (randbelow s n).1 < n :=
  Nat.mod_lt _ h

/-- The elementwise swap `x[i], x[j] = x[j], x[i]` of the Fisher-Yates
pass inside `random.shuffle`.  Out-of-range indices leave the list
unchanged (the shuffle only ever uses in-range indices). -/
def swapL (l : List α) (i j : ℕ) : List α :=
  match l[i]?, l[j]? with
  | some a, some b => (l.set i b).set j a
  | _, _ => l

/-- Replacing the element stored at an index is a permutation once the
replaced element is put back on top. -/
theorem cons_set_perm (a b : α) :
    ∀ (l : List α) (k : ℕ), l[k]? = some b →
      List.Perm (b :: l.set k a) (a :: l) := by
  intro l
  induction l with
  | nil => intro k h; simp at h
  | cons x t ih =>
    intro k h
    cases k with
    | zero =>
      simp only [List.getElem?_cons_zero, Option.some_inj] at h
      subst h
      rw [show (x :: t).set 0 a = a :: t from rfl]
      exact List.Perm.swap a x t
    | succ m =>
      simp only [List.getElem?_cons_succ] at h
      have step := ih m h
      rw [show (x :: t).set (m + 1) a = x :: t.set m a from rfl]
      exact ((List.Perm.swap x b (t.set m a)).trans
        (List.Perm.cons x step)).trans (List.Perm.swap a x t)

theorem swapL_perm (l : List α) (i j : ℕ) : List.Perm (swapL l i j) l := by
  rw [swapL]
  split
  case _ a b hi hj =>
      by_cases hij : i = j
      · subst hij
        rw [List.set_set]
        have hab : a = b := by rw [hi] at hj; exact Option.some_inj.mp hj
        subst hab
        exact (cons_set_perm a a l i hi).cons_inv
      · have hj2 : (l.set i b)[j]? = some b := by
          rw [List.getElem?_set_ne hij, hj]
        have s1 := cons_set_perm a b (l.set i b) j hj2
        have s2 := cons_set_perm b a l i hi
        exact (s1.trans s2).cons_inv
  case _ => exact List.Perm.refl l

theorem swapL_length (l : List α) (i j : ℕ) :
    (swapL l i j).length = l.length :=
  (swapL_perm l i j).length_eq

/-- The counting loop of `random.shuffle`: Python iterates
`for i in reversed(range(1, len(x)))`, drawing `j = _randbelow(i + 1)`
and swapping positions `i` and `j`.  The counter argument holds the
current value of `i`. -/
def shuffleGo : ℕ → RandState → List α → List α × RandState
  | 0, s, l => (l, s)
  | k + 1, s, l =>
      shuffleGo k (randbelow s (k + 2)).2 (swapL l (k + 1) (randbelow s (k + 2)).1)

/-- Model of `random.shuffle(x)` (line 52): an in-place Fisher-Yates pass
from index `len(x) - 1` down to 1. -/
def pyShuffle (s : RandState) (l : List α) : List α × RandState :=
  shuffleGo (l.length - 1) s l

theorem shuffleGo_zero (s : RandState) (l : List α) :
    shuffleGo 0 s l = (l, s) :=
  rfl

theorem shuffleGo_succ (s : RandState) (l : List α) (k : ℕ) :
    shuffleGo (k + 1) s l =
      shuffleGo k (randbelow s (k + 2)).2 (swapL l (k + 1) (randbelow s (k + 2)).1) :=
  rfl

theorem shuffleGo_perm :
    ∀ (k : ℕ) (s : RandState) (l : List α), List.Perm (shuffleGo k s l).1 l := by
  intro k
  induction k with
  | zero => intro s l; exact List.Perm.refl l
  | succ m ih =>
    intro s l
    rw [shuffleGo_succ]
    exact (ih (randbelow s (m + 2)).2 (swapL l (m + 1) (randbelow s (m + 2)).1)).trans
      (swapL_perm l (m + 1) (randbelow s (m + 2)).1)

theorem pyShuffle_perm (s : RandState) (l : List α) :
    List.Perm (pyShuffle s l).1 l :=
  shuffleGo_perm (l.length - 1) s l

theorem pyShuffle_length (s : RandState) (l : List α) :
    (pyShuffle s l).1.length = l.length :=
  (pyShuffle_perm s l).length_eq

theorem pyShuffle_nil (s : RandState) : (pyShuffle s ([] : List α)).1 = [] :=
  rfl

/-! ## The Coverage Result record and calculate_coverage -/

/-- The Coverage Result record (the dictionary built on lines 57-63 of
coverage.py).  The timestamp is the UTC time string with a trailing Z. -/
structure CoverageResult (α : Type) where
  coverage_percentage : ℕ
  total_endpoints : ℕ
  covered_endpoints : List α
  uncovered_endpoints : List α
  timestamp : String

/-- Model of `calculate_coverage(endpoints, coverage_percentage)`
(lines 35-63 of coverage.py).  The wall clock reading of
`datetime.utcnow().isoformat()` enters as the explicit argument `now`;
the global generator state enters as an explicit argument and is
discarded, because line 51 reseeds the generator with the constant 42
before the shuffle; the post-shuffle generator state is returned as the
new global state. -/
def calculate_coverage {α : Type} (now : String) (_rand_state : RandState)
    (endpoints : List α) (coverage_percentage : ℕ) :
    CoverageResult α × RandState :=
  let total_endpoints := endpoints.length
  let covered_count := pyCoveredCount coverage_percentage total_endpoints
  let shuffled := pyShuffle (RandState.seed 42) endpoints
  (⟨coverage_percentage, total_endpoints, shuffled.1.take covered_count,
    shuffled.1.drop covered_count, now ++ "Z"⟩, shuffled.2)

theorem calculate_coverage_covered {α : Type} (now : String) (s : RandState)
    (E : List α) (P : ℕ) :
    (calculate_coverage now s E P).1.covered_endpoints =
      (pyShuffle (RandState.seed 42) E).1.take (pyCoveredCount P E.length) :=
  rfl

theorem calculate_coverage_uncovered {α : Type} (now : String) (s : RandState)
    (E : List α) (P : ℕ) :
    (calculate_coverage now s E P).1.uncovered_endpoints =
      (pyShuffle (RandState.seed 42) E).1.drop (pyCoveredCount P E.length) :=
  rfl

theorem calculate_coverage_total {α : Type} (now : String) (s : RandState)
    (E : List α) (P : ℕ) :
    (calculate_coverage now s E P).1.total_endpoints = E.length :=
  rfl

theorem calculate_coverage_append {α : Type} (now : String) (s : RandState)
    (E : List α) (P : ℕ) :
    (calculate_coverage now s E P).1.covered_endpoints ++
        (calculate_coverage now s E P).1.uncovered_endpoints =
      (pyShuffle (RandState.seed 42) E).1 := by
  rw [calculate_coverage_covered, calculate_coverage_uncovered,
    List.take_append_drop]

theorem calculate_coverage_perm {α : Type} (now : String) (s : RandState)
    (E : List α) (P : ℕ) :
    List.Perm ((calculate_coverage now s E P).1.covered_endpoints ++
      (calculate_coverage now s E P).1.uncovered_endpoints) E := by
  rw [calculate_coverage_append]
  exact pyShuffle_perm (RandState.seed 42) E

theorem calculate_coverage_covered_length {α : Type} (now : String)
    (s : RandState) (E : List α) (P : ℕ) :
    (calculate_coverage now s E P).1.covered_endpoints.length =
      min (pyCoveredCount P E.length) E.length := by
  rw [calculate_coverage_covered, List.length_take, pyShuffle_length]

theorem calculate_coverage_length_sum {α : Type} (now : String)
    (s : RandState) (E : List α) (P : ℕ) :
    (calculate_coverage now s E P).1.covered_endpoints.length +
        (calculate_coverage now s E P).1.uncovered_endpoints.length =
      E.length := by
  have h := congrArg List.length (calculate_coverage_append now s E P)
  rw [List.length_append, pyShuffle_length] at h
  exact h

/-! ## Claims about the Coverage Partitioner -/

/-- Claim C1, counterexample.  The claim states that
`calculate_coverage(E, P)` returns a covered sequence of length
`floor(len(E) * P / 100)` computed over exact arithmetic.  At the
concrete input of 100 endpoints and percentage 29 the code returns 28
covered endpoints, while the exact value `floor(100 * 29 / 100)` is 29:
line 47 computes `int((29 / 100) * 100)` in binary64 floats, and the
float product is 28.999999999999996. -/
theorem claim1_floor_counterexample :
    (calculate_coverage "T" (RandState.seed 0) (List.range 100)
        29).1.covered_endpoints.length ≠ 100 * 29 / 100 := by
  rw [calculate_coverage_covered_length, List.length_range,
    pyCoveredCount_29_100]
  norm_num

/-- Claim C1, amended.  For every endpoint list E and percentage P the
covered sequence has length `min(int((P / 100) * len(E)), len(E))`,
where `int((P / 100) * len(E))` is evaluated in IEEE-754 binary64
arithmetic exactly as Python does on line 47; this value can differ from
the exact `floor(len(E) * P / 100)`.  The lengths of the two subsets
always sum to `len(E)`. -/
theorem claim1_covered_length_float {α : Type} (now : String) (s : RandState)
    (E : List α) (P : ℕ) :
    (calculate_coverage now s E P).1.covered_endpoints.length =
        min (pyCoveredCount P E.length) E.length ∧
      (calculate_coverage now s E P).1.covered_endpoints.length +
          (calculate_coverage now s E P).1.uncovered_endpoints.length =
        E.length := by
  exact ⟨calculate_coverage_covered_length now s E P,
    calculate_coverage_length_sum now s E P⟩

/-- Claim C2.  The covered and uncovered sequences partition E exactly:
their concatenation is a permutation of E, every element of E lands in
exactly one of the two (as sets they cover E), their lengths sum to
`len(E)`, and for duplicate-free E the two subsets are disjoint. -/
theorem claim2_partition {α : Type} (now : String) (s : RandState)
    (E : List α) (P : ℕ) :
    List.Perm ((calculate_coverage now s E P).1.covered_endpoints ++
        (calculate_coverage now s E P).1.uncovered_endpoints) E ∧
      (∀ x, (x ∈ (calculate_coverage now s E P).1.covered_endpoints ∨
          x ∈ (calculate_coverage now s E P).1.uncovered_endpoints) ↔ x ∈ E) ∧
      (calculate_coverage now s E P).1.covered_endpoints.length +
          (calculate_coverage now s E P).1.uncovered_endpoints.length =
        E.length ∧
      (E.Nodup → (calculate_coverage now s E P).1.covered_endpoints.Disjoint
        (calculate_coverage now s E P).1.uncovered_endpoints) := by
  have hperm := calculate_coverage_perm now s E P
  refine ⟨hperm, ?_, calculate_coverage_length_sum now s E P, ?_⟩
  · intro x
    rw [← List.mem_append]
    exact hperm.mem_iff
  · intro hnd
    have hnd2 : ((calculate_coverage now s E P).1.covered_endpoints ++
        (calculate_coverage now s E P).1.uncovered_endpoints).Nodup :=
      hperm.nodup_iff.mpr hnd
    exact (List.nodup_append.mp hnd2).2.2

/-- Claim C2, witness: at a concrete duplicate-free endpoint list the two
subsets produced by the partition are disjoint. -/
theorem claim2_partition_witness :
    (calculate_coverage "T" (RandState.seed 0) ["/a", "/b", "/c"]
        71).1.covered_endpoints.Disjoint
      (calculate_coverage "T" (RandState.seed 0) ["/a", "/b", "/c"]
        71).1.uncovered_endpoints :=
  (claim2_partition "T" (RandState.seed 0) ["/a", "/b", "/c"] 71).2.2.2
    (by decide)

/-- Claim C3.  For a fixed endpoint list and percentage, the covered and
uncovered sequences do not depend on the incoming global generator state
or on the wall clock: line 51 reseeds the generator with the constant 42
on every call, so any two invocations agree. -/
theorem claim3_determinism {α : Type} (now1 now2 : String)
    (s1 s2 : RandState) (E : List α) (P : ℕ) :
    (calculate_coverage now1 s1 E P).1.covered_endpoints =
        (calculate_coverage now2 s2 E P).1.covered_endpoints ∧
      (calculate_coverage now1 s1 E P).1.uncovered_endpoints =
        (calculate_coverage now2 s2 E P).1.uncovered_endpoints :=
  ⟨rfl, rfl⟩

/-- Claim C5.  On the empty endpoint list the partition succeeds for
every percentage: the total is 0 and both subsets are empty.  The model
is a total function, matching the absence of any division by the
endpoint count in lines 46-55 (the only division is by the constant
100). -/
theorem claim5_empty_input (now : String) (s : RandState) (P : ℕ) :
    (calculate_coverage now s ([] : List String) P).1.total_endpoints = 0 ∧
      (calculate_coverage now s ([] : List String) P).1.covered_endpoints = [] ∧
      (calculate_coverage now s ([] : List String) P).1.uncovered_endpoints
        = [] := by
  refine ⟨rfl, ?_, ?_⟩
  · rw [calculate_coverage_covered, pyShuffle_nil, List.take_nil]
  · rw [calculate_coverage_uncovered, pyShuffle_nil, List.drop_nil]

/-- Claim C6, counterexample.  The claim states that percentage 100
leaves the uncovered sequence empty for every endpoint list.  At a list
of length `2 ^ 53 + 1` the code leaves one endpoint uncovered, because
line 47 converts the length to binary64, which rounds it down to
`2 ^ 53`. -/
theorem claim6_counterexample :
    (calculate_coverage "T" (RandState.seed 0)
        (List.replicate (2 ^ 53 + 1) "/e") 100).1.uncovered_endpoints ≠ [] := by
  intro hnil
  have hlen := congrArg List.length hnil
  rw [calculate_coverage_uncovered, List.length_drop, pyShuffle_length,
    List.length_replicate, pyCoveredCount_100_big] at hlen
  norm_num at hlen

/-- Claim C6, amended.  Percentage 0 always yields an empty covered
sequence; percentage 100 yields an empty uncovered sequence for every
endpoint list of length at most `2 ^ 53` (the range in which the float
conversion of the length on line 47 is exact). -/
theorem claim6_extreme_percentages {α : Type} (now : String) (s : RandState)
    (E : List α) :
    (calculate_coverage now s E 0).1.covered_endpoints = [] ∧
      (E.length ≤ 2 ^ 53 →
        (calculate_coverage now s E 100).1.uncovered_endpoints = []) := by
  constructor
  · rw [calculate_coverage_covered, pyCoveredCount_zero, List.take_zero]
  · intro h
    rw [calculate_coverage_uncovered, pyCoveredCount_100 h]
    exact List.drop_eq_nil_of_le (le_of_eq (pyShuffle_length _ _))

/-- Claim C6, witness: at a concrete two-endpoint list, percentage 100
covers everything. -/
theorem claim6_extreme_percentages_witness :
    (calculate_coverage "T" (RandState.seed 0) ["/a", "/b"]
        100).1.uncovered_endpoints = [] :=
  (claim6_extreme_percentages "T" (RandState.seed 0) ["/a", "/b"]).2
    (by norm_num)

/-- Claim C7.  The covered sequence is exactly the first
`covered_count` elements of the seeded shuffle of (a copy of) E, the
uncovered sequence is exactly the rest, both in the output order of the
shuffle, and the shuffled list is a permutation of E. -/
theorem claim7_shuffle_slices {α : Type} (now : String) (s : RandState)
    (E : List α) (P : ℕ) :
    (calculate_coverage now s E P).1.covered_endpoints =
        (pyShuffle (RandState.seed 42) E).1.take (pyCoveredCount P E.length) ∧
      (calculate_coverage now s E P).1.uncovered_endpoints =
        (pyShuffle (RandState.seed 42) E).1.drop (pyCoveredCount P E.length) ∧
      (calculate_coverage now s E P).1.covered_endpoints ++
          (calculate_coverage now s E P).1.uncovered_endpoints =
        (pyShuffle (RandState.seed 42) E).1 ∧
      List.Perm (pyShuffle (RandState.seed 42) E).1 E :=
  ⟨rfl, rfl, calculate_coverage_append now s E P,
    pyShuffle_perm (RandState.seed 42) E⟩

/-! ## Model of the parsed YAML document and of the Spec Loader -/

/-- Values produced by `yaml.safe_load` that matter to the loader: the
empty document parses to None, and a document may parse to a scalar, a
sequence, or a mapping. -/
inductive PyVal where
  | pynone : PyVal
  | pyint : ℤ → PyVal
  | pystr : String → PyVal
  | pylist : List PyVal → PyVal
  | pydict : List (String × PyVal) → PyVal

/-- First-match lookup in a mapping (Python dict keys are unique, so
first match is the match). -/
def dictLookup : List (String × PyVal) → String → Option PyVal
  | [], _ => none
  | (k, v) :: rest, key => if k = key then some v else dictLookup rest key

/-- Model of the attribute access `obj.get(key, default)` (line 28).
On a non-mapping value Python raises AttributeError, because only dict
has a `get` method. -/
def pyGet (v : PyVal) (key : String) (dflt : PyVal) : Except String PyVal :=
  match v with
  | .pydict entries => .ok ((dictLookup entries key).getD dflt)
  | _ => .error "AttributeError"

/-- Model of `obj.keys()` (line 30); raises AttributeError on a
non-mapping value. -/
def pyKeys (v : PyVal) : Except String (List String) :=
  match v with
  | .pydict entries => .ok (entries.map Prod.fst)
  | _ => .error "AttributeError"

/-- The three loader-relevant states of the input file: the path does
not name a file (line 17), the file exists but yaml.safe_load raises
YAMLError (line 24), or parsing succeeds with some document. -/
inductive LoadInput where
  | missing : LoadInput
  | unparsable : String → LoadInput
  | parsed : PyVal → LoadInput

/-- Model of `parse_openapi_yaml` (lines 7-33): a missing file and a
parse error are swallowed into an empty endpoint list; on a parsed
document the paths mapping is read with `.get` and its keys are
collected in order.  Exceptions other than YAMLError (the AttributeError
of `.get` and `.keys` on non-mapping values) propagate. -/
def parse_openapi_yaml : LoadInput → Except String (List String)
  | .missing => .ok []
  | .unparsable _ => .ok []
  | .parsed doc =>
      match pyGet doc "paths" (.pydict []) with
      | .error e => .error e
      | .ok paths =>
          match pyKeys paths with
          | .error e => .error e
          | .ok ks => .ok ks

/-- Claim C4, counterexample.  The claim states that every successfully
parsed document without a `paths` key yields an empty list without an
error.  An empty YAML file parses successfully to None, which has no
`paths` key, yet the loader raises AttributeError on line 28 (None has
no `.get` method): the try block only catches YAMLError. -/
theorem claim4_nondict_counterexample :
    parse_openapi_yaml (.parsed .pynone) = .error "AttributeError" :=
  rfl

/-- Claim C4, amended.  For every input file that parses successfully to
a mapping with no `paths` key, the loader returns the empty list without
an error; for non-mapping parse results (None, a scalar, a sequence) it
instead raises AttributeError. -/
theorem claim4_no_paths_key {entries : List (String × PyVal)}
    (h : dictLookup entries "paths" = none) :
    parse_openapi_yaml (.parsed (.pydict entries)) = .ok [] := by
  rw [parse_openapi_yaml, pyGet, h]
  rfl

/-- Claim C4, witness: a mapping document bearing only an `openapi` key
loads as zero endpoints. -/
theorem claim4_no_paths_key_witness :
    parse_openapi_yaml
        (.parsed (.pydict [("openapi", .pystr "3.0.0")])) = .ok [] :=
  claim4_no_paths_key (by rfl)

/-! ## Model of the Driver -/

/-- The observable outcome of a completed run of `main` (lines 193-213):
the status lines printed and the report files written. -/
structure RunOutcome where
  printed : List String
  files_written : List String

/-- The failure notice printed on line 203. -/
def no_endpoints_msg : String :=
  "No endpoints found or failed to parse YAML. Exiting."

/-- Model of `main` (lines 193-213): load the endpoints; if the list is
empty print the failure notice and return without writing anything;
otherwise partition at the fixed percentage 71 and write the two report
files into coverage_reports.  An exception from the loader propagates
(the process would die with a traceback).  (Named coverage_main because
Lean reserves the name main for executables.) -/
def coverage_main (input : LoadInput) (now : String) (rand_state : RandState) :
    Except String RunOutcome :=
  match parse_openapi_yaml input with
  | .error e => .error e
  | .ok endpoints =>
      if endpoints.isEmpty then
        .ok ⟨[no_endpoints_msg], []⟩
      else
        let _cov := calculate_coverage now rand_state endpoints 71
        .ok ⟨["JSON coverage report generated",
              "HTML coverage report generated",
              "Mock coverage reports generation completed successfully!"],
             ["coverage_reports/restler_coverage.json",
              "coverage_reports/restler_coverage.html"]⟩

/-- Claim C8.  Whenever the loader comes back with an empty endpoint
list (missing file, parse failure, or a spec with an empty paths
mapping), the run prints the failure notice and terminates normally
having written no report file. -/
theorem claim8_empty_no_reports (input : LoadInput) (now : String)
    (s : RandState) (h : parse_openapi_yaml input = .ok []) :
    coverage_main input now s = .ok ⟨[no_endpoints_msg], []⟩ := by
  rw [coverage_main, h]
  rfl

/-- Claim C8, witness: a missing input file produces the failure notice
and no report files. -/
theorem claim8_empty_no_reports_witness :
    coverage_main .missing "T" (RandState.seed 0) = .ok ⟨[no_endpoints_msg], []⟩ :=
  claim8_empty_no_reports .missing "T" (RandState.seed 0) rfl

/-! ## Model of the JSON Report Emitter -/

/-- The JSON value that `json.dump(coverage_data, f, indent=4)` on line
76 serializes: the Coverage Result dictionary with its five keys in
insertion order. -/
def coverageToJson (r : CoverageResult String) : PyVal :=
  .pydict [("coverage_percentage", .pyint r.coverage_percentage),
           ("total_endpoints", .pyint r.total_endpoints),
           ("covered_endpoints", .pylist (r.covered_endpoints.map .pystr)),
           ("uncovered_endpoints", .pylist (r.uncovered_endpoints.map .pystr)),
           ("timestamp", .pystr r.timestamp)]

/-- Model of `generate_mock_coverage_json` (lines 65-77): the path of the
file written inside the output directory together with the JSON document
it holds. -/
def generate_mock_coverage_json (r : CoverageResult String)
    (output_dir : String) : String × PyVal :=
  (output_dir ++ "/restler_coverage.json", coverageToJson r)

/-- Read back a JSON array of strings. -/
def asStrList : List PyVal → Option (List String)
  | [] => some []
  | .pystr s :: rest => (asStrList rest).map (fun t => s :: t)
  | _ => none

/-- Reconstruct a Coverage Result from a parsed JSON document, as a
consumer of the report would (`json.load` returns the dictionary
written by `json.dump`). -/
def coverageFromJson (v : PyVal) : Option (CoverageResult String) :=
  match v with
  | .pydict entries =>
      match dictLookup entries "coverage_percentage",
            dictLookup entries "total_endpoints",
            dictLookup entries "covered_endpoints",
            dictLookup entries "uncovered_endpoints",
            dictLookup entries "timestamp" with
      | some (.pyint p), some (.pyint t), some (.pylist cov),
          some (.pylist unc), some (.pystr ts) =>
          match asStrList cov, asStrList unc with
          | some cl, some ul =>
              if 0 ≤ p ∧ 0 ≤ t then some ⟨p.toNat, t.toNat, cl, ul, ts⟩
              else none
          | _, _ => none
      | _, _, _, _, _ => none
  | _ => none

theorem asStrList_map (l : List String) :
    asStrList (l.map .pystr) = some l := by
  induction l with
  | nil => rfl
  | cons x t ih => simp [asStrList, ih]

/-- Claim C9.  Parsing the JSON document written by the JSON Report
Emitter reconstructs the in-memory Coverage Result exactly: all five
fields round-trip (the timestamp is a string here, so it round-trips
verbatim). -/
theorem claim9_json_round_trip (r : CoverageResult String)
    (output_dir : String) :
    coverageFromJson (generate_mock_coverage_json r output_dir).2 = some r := by
  rw [generate_mock_coverage_json, coverageToJson, coverageFromJson]
  simp [dictLookup, asStrList_map]

/-! ## Model of the HTML Report Emitter -/

/-- One list item of the HTML report: the f-string
`<li class="covered">{ep}</li>` of lines 170 and 176.  The endpoint
string is interpolated verbatim; no character is escaped. -/
def htmlEndpointItem (cls ep : String) : String :=
  "<li class=\"" ++ cls ++ "\">" ++ ep ++ "</li>"

/-- The joined list items: the empty-string join of lines 170 and 176. -/
def htmlEndpointList (cls : String) (eps : List String) : String :=
  String.join (eps.map (htmlEndpointItem cls))

/-- The HTML document built by `generate_mock_coverage_html`
(lines 94-186): the literal template with the coverage data interpolated
at the seven interpolation points.  Literal braces of the CSS are
written with character escapes. -/
def generate_mock_coverage_html_content (r : CoverageResult String) : String :=
  "
    <!DOCTYPE html>
    <html>
    <head>
        <title>RESTler Coverage Report</title>
        <style>
            body \x7b
                font-family: Arial, sans-serif;
                margin: 40px;
                background-color: #f4f4f4;
            \x7d
            .coverage-summary \x7b
                width: 90%;
                margin: auto;
                background: #fff;
                padding: 20px;
                border-radius: 8px;
                box-shadow: 0 0 10px rgba(0,0,0,0.1);
            \x7d
            .coverage-bar \x7b
                width: 100%;
                background-color: #ddd;
                border-radius: 25px;
                overflow: hidden;
                margin: 20px 0;
            \x7d
            .coverage-bar-fill \x7b
                height: 30px;
                width: " ++ toString r.coverage_percentage ++ "%;
                background-color: #4CAF50;
                text-align: center;
                line-height: 30px;
                color: white;
                border-radius: 25px 0 0 25px;
                transition: width 0.5s;
            \x7d
            .details \x7b
                text-align: left;
                margin-top: 20px;
            \x7d
            .endpoint-list \x7b
                max-height: 300px;
                overflow-y: scroll;
                border: 1px solid #ccc;
                padding: 10px;
                border-radius: 5px;
                background-color: #f9f9f9;
            \x7d
            .covered \x7b
                color: green;
            \x7d
            .uncovered \x7b
                color: red;
            \x7d
            .timestamp \x7b
                margin-top: 20px;
                font-size: 0.9em;
                color: #555;
            \x7d
            h1, h2 \x7b
                text-align: center;
            \x7d
        </style>
    </head>
    <body>
        <div class=\"coverage-summary\">
            <h1>RESTler Coverage Report</h1>
            <p><strong>Coverage Percentage:</strong> "
    ++ toString r.coverage_percentage ++ "%</p>
            <div class=\"coverage-bar\">
                <div class=\"coverage-bar-fill\">"
    ++ toString r.coverage_percentage ++ "%</div>
            </div>
            <div class=\"details\">
                <p><strong>Total Endpoints:</strong> "
    ++ toString r.total_endpoints ++ "</p>
                <h2>Covered Endpoints ("
    ++ toString r.covered_endpoints.length ++ "):</h2>
                <div class=\"endpoint-list\">
                    <ul>
                        " ++ htmlEndpointList "covered" r.covered_endpoints ++ "
                    </ul>
                </div>
                <h2>Uncovered Endpoints ("
    ++ toString r.uncovered_endpoints.length ++ "):</h2>
                <div class=\"endpoint-list\">
                    <ul>
                        " ++ htmlEndpointList "uncovered" r.uncovered_endpoints ++ "
                    </ul>
                </div>
            </div>
            <div class=\"timestamp\">
                Report generated at: " ++ r.timestamp ++ "
            </div>
        </div>
    </body>
    </html>
    "

/-- Model of `generate_mock_coverage_html` (lines 79-191): the path of
the file written inside the output directory together with the document
text. -/
def generate_mock_coverage_html (r : CoverageResult String)
    (output_dir : String) : String × String :=
  (output_dir ++ "/restler_coverage.html", generate_mock_coverage_html_content r)

/-- Character lists: does the second list occur at the head of the
first? -/
def leadMatch : List Char → List Char → Bool
  | _, [] => true
  | [], _ :: _ => false
  | a :: l, b :: p => a == b && leadMatch l p

/-- Character lists: does the second list occur anywhere inside the
first? -/
def hasSub : List Char → List Char → Bool
  | [], p => leadMatch [] p
  | a :: l, p => leadMatch (a :: l) p || hasSub l p

set_option maxRecDepth 40000 in
/-- Claim C10.  The HTML Report Emitter interpolates endpoint
identifiers verbatim: at the endpoint `/a<b&c` the emitted document
contains the raw characters inside the list item, and no entity escape
such as `&lt;` anywhere, so markup metacharacters in endpoint strings
reach the output unescaped (the escaping the specification requires is
absent). -/
theorem claim10_html_no_escaping :
    htmlEndpointList "covered" ["/a<b&c"] = "<li class=\"covered\">/a<b&c</li>" ∧
      hasSub (generate_mock_coverage_html_content
          ⟨71, 1, ["/a<b&c"], [], "T"⟩).data
        ("<li class=\"covered\">/a<b&c</li>").data = true ∧
      hasSub (generate_mock_coverage_html_content
          ⟨71, 1, ["/a<b&c"], [], "T"⟩).data ("&lt;").data = false := by
  refine ⟨rfl, ?_, ?_⟩ <;> decide
